import Mathlib

/-!
Verification of the libninja ingestion-and-dispatch pipeline
(`src/libninja/src/command/generate.rs`).

The Rust code is shallowly embedded: pure helpers become Lean functions,
file I/O and the external collaborators (serde deserializers, the spec
extractor, the Rust codegen backend) become explicit oracle parameters,
and Rust panics become an explicit `panic` outcome constructor.
-/

namespace Libninja

/-- Raw byte content of a file (opened via `File::open` and handed to serde). -/
abbrev Bytes := List Nat

/-- An OS string as returned by `Path::extension()`: either valid UTF-8 text
(`OsStr::to_str` succeeds) or invalid bytes (`to_str` returns `None`). -/
inductive OsStr where
  | utf8 (s : String)
  | invalid (bytes : Bytes)
deriving DecidableEq, Repr

/-- `OsStr::to_str`: `Some` exactly when the string is valid UTF-8. -/
def OsStr.toStr : OsStr → Option String
  | .utf8 s => some s
  | .invalid _ => none

/-- A filesystem path as used by `read_spec`: its textual display (what
`{:?}` prints, minus the surrounding quotes) and the result of
`Path::extension()`. -/
structure SpecPath where
  display : String
  ext : Option OsStr
deriving DecidableEq, Repr

/-- The `{:?}` (Debug) rendering of a path: the display string in quotes. -/
def pathDebug (p : SpecPath) : String :=
  "\"" ++ p.display ++ "\""

/-- The message built by `anyhow!("{:?}: OpenAPI file not found.", path)` at
line 116 of generate.rs. Note the closure `|_|` ignores the underlying
`io::Error`, so the message is a function of the path alone. -/
def fnfMessage (p : SpecPath) : String :=
  pathDebug p ++ ": OpenAPI file not found."

/-- Error taxonomy of the pipeline, by construction site: file-open failure
(line 116), serde deserialization failure (lines 122-123), extractor failure
(line 101) and backend failure (line 110). `anyhow::Error` erases types, so
causes are carried as strings. -/
inductive Err where
  | fileNotFound (msg : String)
  | parse (cause : String)
  | extract (cause : String)
  | generation (cause : String)
deriving DecidableEq, Repr

/-- Outcome of running a Rust function returning `anyhow::Result`: a value,
an error, or a panic (from `expect`/`panic!`) with its message. -/
inductive Res (A : Type) where
  | ok (v : A)
  | err (e : Err)
  | panic (msg : String)
deriving DecidableEq, Repr

/-- The `?` operator on a serde result: errors become `ParseError`s carrying
the underlying cause. -/
def parseResult {V : Type} : Except String V → Res V
  | .ok v => .ok v
  | .error c => .err (.parse c)

/-- The `match ext` expression of `read_spec` (generate.rs lines 121-125):
`yaml`/`yml` select YAML deserialization, `json` selects JSON
deserialization, any other extension string panics. -/
def dispatchExt {V : Type} (yamlFrom jsonFrom : Bytes → Except String V)
    (ext : String) (bytes : Bytes) : Res V :=
  if ext = "yaml" ∨ ext = "yml" then parseResult (yamlFrom bytes)
  else if ext = "json" then parseResult (jsonFrom bytes)
  else .panic "Unknown file extension"

/-- Lines 126-127 of generate.rs: `openapi.upgrade()` applied to a
successfully deserialized document, propagating failure outcomes. -/
def upgradeRes {V O : Type} (upgradeF : V → O) : Res V → Res O
  | .ok v => .ok (upgradeF v)
  | .err e => .err e
  | .panic m => .panic m

/-- Embedding of `read_spec` (generate.rs lines 115-128), parameterized by
the external collaborators: `upgradeF` models `VersionedOpenAPI::upgrade`,
`yamlFrom`/`jsonFrom` model `serde_yaml::from_reader`/`serde_json::from_reader`,
and `file` is the outcome of `File::open` (the error value, if any, is the
underlying `io::Error`). Mirrors the source statement by statement: open the
file (mapping failure to the not-found message), compute the extension
(panicking via `expect` when it is not UTF-8, defaulting to `"yaml"` when
absent), dispatch on it (`yaml`/`yml` to YAML, `json` to JSON, anything else
panics), then upgrade the versioned document. -/
def read_spec {V O : Type} (upgradeF : V → O)
    (yamlFrom jsonFrom : Bytes → Except String V)
    (path : SpecPath) (file : Except String Bytes) : Res O :=
  match file with
  | .error _ => .err (.fileNotFound (fnfMessage path))
  | .ok bytes =>
    match path.ext with
    | some os =>
      match os.toStr with
      | some s => upgradeRes upgradeF (dispatchExt yamlFrom jsonFrom s bytes)
      | none => .panic "Extension isn't utf8"
    | none => upgradeRes upgradeF (dispatchExt yamlFrom jsonFrom "yaml" bytes)

/-- CLI feature flags (the `Flag` enum of generate.rs lines 11-17). The doc
comment on `Ormlite` in the source reads: "Only used by Rust. Adds
ormlite::TableMeta flags to the code." -/
inductive Flag where
  | Ormlite
  | Fake
deriving DecidableEq, Repr

/-- Modelled from the spec: the `TargetLanguage` closed enumeration of
backend identifiers, "currently a single member" (`hir::Language`, whose
source lies outside this crate; `Generate::run` matches only `Language::Rust`,
so `Rust` is its sole member). -/
inductive Language where
  | Rust
deriving DecidableEq, Repr

/-- Modelled from the spec: the `GenerationConfig` immutable record
(`hir::Config`, declared outside this crate). Its fields are exactly those
assigned by the record literal in `Generate::run` (generate.rs lines
102-108): canonical service name, destination directory, ordered derive
list, example-generation toggle, and the ORM-mapping feature flag. -/
structure Config where
  name : String
  dest : String
  derives : List String
  build_examples : Bool
  ormlite : Bool
deriving DecidableEq, Repr

/-- The `Generate` argument struct (generate.rs lines 19-45). -/
structure Generate where
  language : Language
  examples : Bool
  output_dir : Option String
  config : List Flag
  derive : List String
  name : String
  spec_filepath : String
deriving DecidableEq, Repr

/-- `Generate::new` (generate.rs lines 48-58). -/
def Generate.new : Generate :=
  { language := .Rust
    examples := true
    output_dir := none
    config := []
    derive := []
    name := ""
    spec_filepath := "" }

/-- `Generate::with_language` (line 60): replaces the language field. -/
def Generate.with_language (g : Generate) (language : Language) : Generate :=
  { g with language := language }

/-- `Generate::with_examples` (line 64): replaces the examples toggle. -/
def Generate.with_examples (g : Generate) (examples : Bool) : Generate :=
  { g with examples := examples }

/-- `Generate::with_output_dir` (line 68): sets the output directory. -/
def Generate.with_output_dir (g : Generate) (output_dir : String) : Generate :=
  { g with output_dir := some output_dir }

/-- `Generate::with_name` (line 72): replaces the service name. -/
def Generate.with_name (g : Generate) (name : String) : Generate :=
  { g with name := name }

/-- `Generate::with_spec_filepath` (line 76): replaces the spec file path. -/
def Generate.with_spec_filepath (g : Generate) (spec_filepath : String) : Generate :=
  { g with spec_filepath := spec_filepath }

/-- `Generate::add_derive` (line 80): `self.derive.push(derive)`. -/
def Generate.add_derive (g : Generate) (derive : String) : Generate :=
  { g with derive := g.derive ++ [derive] }

/-- `Generate::with_derive` (line 84): replaces the derive list. -/
def Generate.with_derive (g : Generate) (derive : List String) : Generate :=
  { g with derive := derive }

/-- `Generate::add_config` (line 88): `self.config.push(config)`. -/
def Generate.add_config (g : Generate) (config : Flag) : Generate :=
  { g with config := g.config ++ [config] }

/-- `Generate::with_config` (line 92): replaces the flag list. -/
def Generate.with_config (g : Generate) (config : List Flag) : Generate :=
  { g with config := config }

/-- Word separators recognised by the casing conversion. -/
def isSep (c : Char) : Bool :=
  c = '_' || c = '-' || c = ' '

/-- Modelled from the spec: word splitting of the external `convert_case`
crate (out of scope as a "naming/casing utility"), as far as the spec pins it
down: words break at separator characters (underscore, hyphen, space) and at
a lower-to-upper case boundary, so that `my_service` splits into
`my`/`service`. The accumulator holds the current word reversed. -/
def splitWordsAux : List Char → List Char → List (List Char)
  | [], [] => []
  | [], acc => [acc.reverse]
  | c :: rest, acc =>
    if isSep c then
      match acc with
      | [] => splitWordsAux rest []
      | _ :: _ => acc.reverse :: splitWordsAux rest []
    else
      match acc with
      | p :: _ =>
        if p.isLower && c.isUpper then acc.reverse :: splitWordsAux rest [c]
        else splitWordsAux rest (c :: acc)
      | [] => splitWordsAux rest [c]

/-- Capitalize one word: first character uppercased, the rest lowercased. -/
def capitalizeWord : List Char → List Char
  | [] => []
  | c :: rest => c.toUpper :: rest.map Char.toLower

/-- Modelled from the spec: `name.to_case(Case::Pascal)` of the external
`convert_case` crate — "Normalizes the supplied service name to a fixed
word-casing convention (e.g., Pascal-like: `my_service` maps to `MyService`)":
split into words, capitalize each, concatenate. -/
def toPascal (s : String) : String :=
  String.mk ((splitWordsAux s.data []).map capitalizeWord).flatten

/-- The final path component: characters after the last separator, with
trailing separators ignored (Rust `Path::file_name` on ordinary names). -/
def lastComponent (s : String) : List Char :=
  ((s.data.reverse.dropWhile (fun c => c = '/')).takeWhile (fun c => c ≠ '/')).reverse

/-- Characters after the last dot of a file name, or `none` if it has no dot. -/
def afterLastDot : List Char → Option (List Char)
  | [] => none
  | c :: rest =>
    match afterLastDot rest with
    | some e => some e
    | none => if c = '.' then some rest else none

/-- `Path::extension()` on a file name: the portion after the final dot,
except that a name without a dot, or beginning with its only dot, has no
extension. -/
def extOfName (name : List Char) : Option String :=
  match name with
  | [] => none
  | c :: rest =>
    if c = '.' then (afterLastDot rest).map String.mk
    else (afterLastDot (c :: rest)).map String.mk

/-- `PathBuf::from(string)` as seen by `read_spec`: the display text is the
string itself and the extension is computed from the final component. A
path built from a Rust `String` is always valid UTF-8, so the extension, when
present, is a `utf8` `OsStr`. -/
def pathOf (s : String) : SpecPath :=
  { display := s, ext := (extOfName (lastComponent s)).map OsStr.utf8 }

/-- Lines 100 and 102-108 of generate.rs: the output-directory defaulting
(`self.output_dir.unwrap_or_else(|| ".")`) and the `Config { .. }` record
literal built in `Generate::run`. Note `ormlite` is the literal `false` and
`self.config` is not consulted. -/
def Generate.builtConfig (g : Generate) : Config :=
  { name := toPascal g.name
    dest := g.output_dir.getD "."
    derives := g.derive
    build_examples := g.examples
    ormlite := false }

/-- Call trace of the two external collaborators invoked by `Generate::run`:
the canonical documents passed to `extract_spec` and the (IR, config) pairs
passed to `codegen_rust::generate_rust_library`. -/
structure RunTrace (O IR : Type) where
  extractArgs : List O
  backendArgs : List (IR × Config)
deriving DecidableEq, Repr

/-- Embedding of `Generate::run` (generate.rs lines 97-112), parameterized
by the collaborators: `fileOf` is the file system (outcome of `File::open`
per path), `upgradeF`/`yamlFrom`/`jsonFrom` are as in `read_spec`,
`extractF` models `extract_spec` and `generateRust` models
`codegen_rust::generate_rust_library`. Returns the `anyhow::Result` outcome
together with the trace of collaborator calls. Mirrors the source: build the
path from `self.spec_filepath`, call `read_spec` (propagating failure),
resolve the output directory and build the config, then match on the
language and delegate to the Rust backend. -/
def Generate.run {V O IR : Type} (g : Generate)
    (fileOf : String → Except String Bytes)
    (upgradeF : V → O) (yamlFrom jsonFrom : Bytes → Except String V)
    (extractF : O → Except String IR)
    (generateRust : IR → Config → Except String Unit) :
    Res Unit × RunTrace O IR :=
  match read_spec upgradeF yamlFrom jsonFrom (pathOf g.spec_filepath) (fileOf g.spec_filepath) with
  | .err e => (.err e, ⟨[], []⟩)
  | .panic m => (.panic m, ⟨[], []⟩)
  | .ok spec =>
    match extractF spec with
    | .error e => (.err (.extract e), ⟨[spec], []⟩)
    | .ok ir =>
      match g.language with
      | .Rust =>
        match generateRust ir g.builtConfig with
        | .ok _ => (.ok (), ⟨[spec], [(ir, g.builtConfig)]⟩)
        | .error e => (.err (.generation e), ⟨[spec], [(ir, g.builtConfig)]⟩)

/-- String concatenation is associative (used to exhibit the path as a
substring of the not-found message). -/
theorem string_append_assoc (a b c : String) : a ++ b ++ c = a ++ (b ++ c) :=
  String.ext (by simp [String.data_append, List.append_assoc])

/-- Claim C1, counterexample: on the path `spec.toml` — extension present and
none of `yaml`/`yml`/`json` — `read_spec` does not deserialize the file as
YAML (which would yield `ok 7` under a YAML oracle answering `7`): it panics
with "Unknown file extension". -/
theorem C1_counterexample :
    @read_spec Nat Nat id (fun _ => .ok 7) (fun _ => .ok 8)
        (pathOf "spec.toml") (.ok [1]) = .panic "Unknown file extension" ∧
    @read_spec Nat Nat id (fun _ => .ok 7) (fun _ => .ok 8)
        (pathOf "spec.toml") (.ok [1]) ≠ .ok (id 7) := by
  constructor <;> decide

/-- Claim C1, amended: for every path whose extension is present but is
neither `yaml`, `yml`, nor `json`, `read_spec` panics with "Unknown file
extension" (only a missing extension defaults to YAML). -/
theorem C1_unknown_ext_panics {V O : Type} (upgradeF : V → O)
    (yamlFrom jsonFrom : Bytes → Except String V)
    (path : SpecPath) (bytes : Bytes) (e : String)
    (hext : path.ext = some (.utf8 e))
    (hyaml : e ≠ "yaml") (hyml : e ≠ "yml") (hjson : e ≠ "json") :
    read_spec upgradeF yamlFrom jsonFrom path (.ok bytes) =
      .panic "Unknown file extension" := by
  have h1 : ¬(e = "yaml" ∨ e = "yml") := fun hc => hc.elim hyaml hyml
  unfold read_spec
  rw [hext]
  show upgradeRes upgradeF (dispatchExt yamlFrom jsonFrom e bytes) = _
  unfold dispatchExt
  rw [if_neg h1, if_neg hjson]
  rfl

/-- Claim C1, witness for the amended theorem at the concrete path
`spec.toml`. -/
theorem C1_witness :
    @read_spec Nat Nat id (fun _ => .ok 7) (fun _ => .ok 8)
        ⟨"spec.toml", some (.utf8 "toml")⟩ (.ok [1]) =
      .panic "Unknown file extension" :=
  C1_unknown_ext_panics id (fun _ => .ok 7) (fun _ => .ok 8)
    ⟨"spec.toml", some (.utf8 "toml")⟩ [1] "toml" rfl
    (by decide) (by decide) (by decide)

/-- Claim C2: evaluating `Generate::run` with the `Ormlite` flag supplied and
with every collaborator succeeding: the config handed to the backend still has
`ormlite = false`, because line 107 of generate.rs is the literal
`ormlite: false` and `self.config` is never read — contradicting the source's
own doc comment on `Flag::Ormlite` ("Adds ormlite::TableMeta flags to the
code"). The last conjunct shows this for every invocation. -/
theorem C2_ormlite_ignored :
    (@Generate.run Nat Nat Nat (Generate.new.add_config .Ormlite)
        (fun _ => .ok [1]) id (fun _ => .ok 0) (fun _ => .ok 0)
        (fun d => .ok d) (fun _ _ => .ok ())).2.backendArgs =
      [(0, { name := "", dest := ".", derives := [], build_examples := true,
             ormlite := false })] ∧
    (Generate.new.add_config .Ormlite).config = [.Ormlite] ∧
    ∀ g : Generate, g.builtConfig.ormlite = false := by
  exact ⟨by decide, by decide, fun g => rfl⟩

/-- Claim C3, counterexample: the error `read_spec` returns when `File::open`
fails is the same value for two distinct underlying I/O errors — the closure
at line 116 of generate.rs discards the `io::Error` — so the returned error
cannot carry the underlying cause. -/
theorem C3_counterexample :
    @read_spec Nat Nat id (fun _ => .ok 7) (fun _ => .ok 8)
        (pathOf "spec.yaml") (.error "permission denied") =
      @read_spec Nat Nat id (fun _ => .ok 7) (fun _ => .ok 8)
        (pathOf "spec.yaml") (.error "interrupted") ∧
    ("permission denied" : String) ≠ "interrupted" ∧
    @read_spec Nat Nat id (fun _ => .ok 7) (fun _ => .ok 8)
        (pathOf "spec.yaml") (.error "permission denied") =
      .err (.fileNotFound "\"spec.yaml\": OpenAPI file not found.") :=
  ⟨rfl, by decide, rfl⟩

/-- Claim C3, amended: deserialization failures are propagated carrying the
underlying serde cause, but the `File::open` failure is replaced by a
path-only message that discards the underlying I/O error. -/
theorem C3_error_causes {V O : Type} (upgradeF : V → O)
    (yamlFrom jsonFrom : Bytes → Except String V)
    (path : SpecPath) (bytes : Bytes) (c : String)
    (hext : path.ext = some (.utf8 "yaml"))
    (hfail : yamlFrom bytes = .error c) :
    read_spec upgradeF yamlFrom jsonFrom path (.ok bytes) = .err (.parse c) ∧
    ∀ io : String, read_spec upgradeF yamlFrom jsonFrom path (.error io) =
      .err (.fileNotFound (fnfMessage path)) := by
  constructor
  · unfold read_spec
    rw [hext]
    show upgradeRes upgradeF (dispatchExt yamlFrom jsonFrom "yaml" bytes) = _
    unfold dispatchExt
    rw [if_pos (Or.inl rfl), hfail]
    rfl
  · intro io; rfl

/-- Claim C3, witness for the amended theorem: a failing YAML parse surfaces
as a `ParseError` carrying the cause "bad yaml". -/
theorem C3_witness :
    @read_spec Nat Nat id (fun _ => .error "bad yaml") (fun _ => .ok 8)
        ⟨"spec.yaml", some (.utf8 "yaml")⟩ (.ok [1]) = .err (.parse "bad yaml") :=
  (C3_error_causes id (fun _ => .error "bad yaml") (fun _ => .ok 8)
    ⟨"spec.yaml", some (.utf8 "yaml")⟩ [1] "bad yaml" rfl rfl).1

/-- Claim C4: whenever `read_spec` fails with a `ParseError`, `Generate::run`
returns exactly that error and the trace is empty: neither `extract_spec` nor
`generate_rust_library` is invoked. -/
theorem C4_parse_failure_stops_pipeline {V O IR : Type} (g : Generate)
    (fileOf : String → Except String Bytes)
    (upgradeF : V → O) (yamlFrom jsonFrom : Bytes → Except String V)
    (extractF : O → Except String IR)
    (generateRust : IR → Config → Except String Unit) (c : String)
    (hparse : read_spec upgradeF yamlFrom jsonFrom (pathOf g.spec_filepath)
        (fileOf g.spec_filepath) = .err (.parse c)) :
    g.run fileOf upgradeF yamlFrom jsonFrom extractF generateRust =
      (.err (.parse c), ⟨[], []⟩) := by
  unfold Generate.run
  rw [hparse]

/-- Claim C4, witness: a truncated-YAML oracle makes `run` return the parse
error with an empty collaborator trace. -/
theorem C4_witness :
    @Generate.run Nat Nat Nat Generate.new
        (fun _ => .ok [1]) id (fun _ => .error "truncated") (fun _ => .ok 0)
        (fun d => .ok d) (fun _ _ => .ok ()) =
      (.err (.parse "truncated"), ⟨[], []⟩) :=
  C4_parse_failure_stops_pipeline Generate.new (fun _ => .ok [1]) id
    (fun _ => .error "truncated") (fun _ => .ok 0)
    (fun d => .ok d) (fun _ _ => .ok ()) "truncated" rfl

/-- Claim C5: on a successfully opened file, `read_spec` on a path with no
extension behaves identically to `read_spec` on a path with extension `yaml`
and the same byte content. -/
theorem C5_missing_ext_is_yaml {V O : Type} (upgradeF : V → O)
    (yamlFrom jsonFrom : Bytes → Except String V)
    (p₁ p₂ : SpecPath) (bytes : Bytes)
    (h₁ : p₁.ext = none) (h₂ : p₂.ext = some (.utf8 "yaml")) :
    read_spec upgradeF yamlFrom jsonFrom p₁ (.ok bytes) =
      read_spec upgradeF yamlFrom jsonFrom p₂ (.ok bytes) := by
  simp [read_spec, h₁, h₂, OsStr.toStr]

/-- Claim C5, witness at the paths `spec` and `spec.yaml`. -/
theorem C5_witness :
    @read_spec Nat Nat id (fun _ => .ok 7) (fun _ => .ok 8)
        ⟨"spec", none⟩ (.ok [1]) =
      @read_spec Nat Nat id (fun _ => .ok 7) (fun _ => .ok 8)
        ⟨"spec.yaml", some (.utf8 "yaml")⟩ (.ok [1]) :=
  C5_missing_ext_is_yaml id (fun _ => .ok 7) (fun _ => .ok 8)
    ⟨"spec", none⟩ ⟨"spec.yaml", some (.utf8 "yaml")⟩ [1] rfl rfl

/-- Claim C6: when the file cannot be opened, `read_spec` fails with a
file-not-found error whose message contains the path's display text, and
`Generate::run` propagates exactly that error with no collaborator called. -/
theorem C6_file_not_found_names_path {V O IR : Type} (upgradeF : V → O)
    (yamlFrom jsonFrom : Bytes → Except String V)
    (path : SpecPath) (io : String) (g : Generate)
    (fileOf : String → Except String Bytes)
    (extractF : O → Except String IR)
    (generateRust : IR → Config → Except String Unit)
    (hopen : fileOf g.spec_filepath = .error io) :
    read_spec upgradeF yamlFrom jsonFrom path (.error io) =
      .err (.fileNotFound (fnfMessage path)) ∧
    g.run fileOf upgradeF yamlFrom jsonFrom extractF generateRust =
      (.err (.fileNotFound (fnfMessage (pathOf g.spec_filepath))), ⟨[], []⟩) ∧
    ∃ pre post, fnfMessage path = pre ++ (path.display ++ post) := by
  refine ⟨rfl, ?_, "\"", "\"" ++ ": OpenAPI file not found.", ?_⟩
  · unfold Generate.run
    rw [hopen]
    rfl
  · simp [fnfMessage, pathDebug, string_append_assoc]

/-- Claim C6, witness at the path `/does/not/exist`. -/
theorem C6_witness :
    @Generate.run Nat Nat Nat (Generate.new.with_spec_filepath "/does/not/exist")
        (fun _ => .error "ENOENT") id (fun _ => .ok 0) (fun _ => .ok 0)
        (fun d => .ok d) (fun _ _ => .ok ()) =
      (.err (.fileNotFound "\"/does/not/exist\": OpenAPI file not found."),
        ⟨[], []⟩) :=
  (@C6_file_not_found_names_path Nat Nat Nat id
    (fun _ => .ok 0) (fun _ => .ok 0) (pathOf "/does/not/exist") "ENOENT"
    (Generate.new.with_spec_filepath "/does/not/exist")
    (fun _ => .error "ENOENT") (fun d => .ok d) (fun _ _ => .ok ()) rfl).2.1

/-- Claim C7: the config `Generate::run` hands the backend is always the
value-determined `builtConfig` (stated via the call trace); its name field is
the Pascal-casing of the supplied service name; `"my_api"` normalizes to
`"MyApi"`; and config building is deterministic: equal invocation inputs give
configs equal by value. -/
theorem C7_config_deterministic_pascal :
    (∀ (g : Generate) {V O IR : Type} (fileOf : String → Except String Bytes)
        (upgradeF : V → O) (yamlFrom jsonFrom : Bytes → Except String V)
        (extractF : O → Except String IR)
        (generateRust : IR → Config → Except String Unit),
      (g.run fileOf upgradeF yamlFrom jsonFrom extractF generateRust).2.backendArgs.map
          Prod.snd =
        List.replicate
          (g.run fileOf upgradeF yamlFrom jsonFrom
            extractF generateRust).2.backendArgs.length
          g.builtConfig) ∧
    (∀ g : Generate, g.builtConfig.name = toPascal g.name) ∧
    toPascal "my_api" = "MyApi" ∧
    ∀ g₁ g₂ : Generate, g₁ = g₂ → g₁.builtConfig = g₂.builtConfig := by
  refine ⟨?_, fun g => rfl, by decide, fun g₁ g₂ h => by rw [h]⟩
  intro g V O IR fileOf upgradeF yamlFrom jsonFrom extractF generateRust
  unfold Generate.run
  split
  · rfl
  · rfl
  · split
    · rfl
    · split
      split <;> rfl

/-- Claim C7, witness instantiating the determinism conjunct at
`Generate::new`. -/
theorem C7_witness :
    Generate.new.builtConfig = Generate.new.builtConfig :=
  C7_config_deterministic_pascal.2.2.2 Generate.new Generate.new rfl

/-- Claim C8: the `derives` field of the built config is exactly the
caller-supplied derive list — same elements, same order, no deduplication or
filtering — both for an arbitrary `Generate` value and through
`with_derive`. -/
theorem C8_derives_verbatim :
    (∀ g : Generate, g.builtConfig.derives = g.derive) ∧
    ∀ (g : Generate) (ds : List String), ((g.with_derive ds).builtConfig).derives = ds :=
  ⟨fun _ => rfl, fun _ _ => rfl⟩

/-- Claim C9: on a path whose extension is present but not valid UTF-8,
`read_spec` halts with the fatal `expect` message "Extension isn't utf8" — an
outcome distinct from every `ParseError` and from every successful (silently
defaulted) deserialization. -/
theorem C9_invalid_ext_fatal {V O : Type} (upgradeF : V → O)
    (yamlFrom jsonFrom : Bytes → Except String V)
    (path : SpecPath) (bytes bs : Bytes)
    (hext : path.ext = some (.invalid bs)) :
    read_spec upgradeF yamlFrom jsonFrom path (.ok bytes) =
      .panic "Extension isn't utf8" ∧
    (∀ c, read_spec upgradeF yamlFrom jsonFrom path (.ok bytes) ≠ .err (.parse c)) ∧
    ∀ v : O, read_spec upgradeF yamlFrom jsonFrom path (.ok bytes) ≠ .ok v := by
  have h : read_spec upgradeF yamlFrom jsonFrom path (.ok bytes) =
      .panic "Extension isn't utf8" := by
    simp [read_spec, hext, OsStr.toStr]
  exact ⟨h, fun c => by rw [h]; simp, fun v => by rw [h]; simp⟩

/-- Claim C9, witness at a path whose extension is the invalid byte 255. -/
theorem C9_witness :
    @read_spec Nat Nat id (fun _ => .ok 7) (fun _ => .ok 8)
        ⟨"spec.bin", some (.invalid [255])⟩ (.ok [1]) =
      .panic "Extension isn't utf8" :=
  (C9_invalid_ext_fatal id (fun _ => .ok 7) (fun _ => .ok 8)
    ⟨"spec.bin", some (.invalid [255])⟩ [1] [255] rfl).1

/-- Claim C10: every builder method on `Generate` equals a record update of
the single field it names (so all other fields are unchanged), and
`add_derive`/`add_config` append their argument at the end of the existing
list. -/
theorem C10_builder_frame :
    ∀ (g : Generate) (l : Language) (b : Bool) (o n f d : String)
      (ds : List String) (c : Flag) (cs : List Flag),
      g.with_language l = { g with language := l } ∧
      g.with_examples b = { g with examples := b } ∧
      g.with_output_dir o = { g with output_dir := some o } ∧
      g.with_name n = { g with name := n } ∧
      g.with_spec_filepath f = { g with spec_filepath := f } ∧
      g.add_derive d = { g with derive := g.derive ++ [d] } ∧
      g.with_derive ds = { g with derive := ds } ∧
      g.add_config c = { g with config := g.config ++ [c] } ∧
      g.with_config cs = { g with config := cs } :=
  fun _ _ _ _ _ _ _ _ _ _ => ⟨rfl, rfl, rfl, rfl, rfl, rfl, rfl, rfl, rfl⟩

end Libninja
